import Mathlib

/-!
Shallow embedding of the report-metrics and aggregation engine of the
production-dashboard repository (files `dashboard.py`, `reports.py`,
`data_loader.py`, `chatbot.py`).

Modelling conventions:
* numeric cells are exact rationals (`ℚ`);
* a pandas float that may be non-finite is a `PFloat` (finite, NaN, ±inf),
  with IEEE division semantics for a zero denominator;
* a date cell is a `DateCell`: either an already-parsed datetime (a day
  number), the pandas `NaT` value, or a raw unparsed string — `load_data`
  and `create_filters` run `pd.to_datetime` over the column;
* a dataframe is a `List Row`; pandas `groupby(k)` produces groups keyed by
  the distinct key values in ascending order (`sort=True` default) and
  drops null keys (`dropna=True` default);
* `Series.sort_values(ascending=False)` is implemented by pandas'
  `nargsort`, which reverses the values BEFORE its stable ascending
  argsort and reverses the resulting indexer AFTER it; the two reversals
  cancel on ties, so the descending sort is itself stable — equal values
  keep their original (groupby key) order. `sort_values_desc` below
  models the same double reversal (numpy's quicksort is an insertion
  sort, hence stable, on the small group tables at issue here);
* Python string formatting (`:,.0f`, `:.2%`, ...) is modelled exactly on
  rationals with round-half-to-even.
-/

/-- A pandas floating value: finite rational, NaN, or signed infinity. -/
inductive PFloat where
  | fin (q : ℚ)
  | nan
  | inf
  | ninf
deriving DecidableEq, Repr

/-- Pandas (IEEE) division: a zero denominator yields NaN (0/0) or a signed
infinity, never an exception. Used for the un-guarded `Share` column
`product['Actual_Production_Units'] / product['Actual_Production_Units'].sum()`
in `reports.py` line 96. -/
def pdiv (n d : ℚ) : PFloat :=
  if d = 0 then
    if n = 0 then PFloat.nan else if 0 < n then PFloat.inf else PFloat.ninf
  else PFloat.fin (n / d)

/-- `reports.py` line 19: `_safe_div(numerator, denominator)` returns
`numerator / denominator` when the denominator is truthy (nonzero) and `0`
otherwise. `dashboard.py` lines 22-28 inline the same conditional. -/
def _safe_div (numerator denominator : ℚ) : ℚ :=
  if denominator = 0 then 0 else numerator / denominator

/-- A date cell of the `Date` column: parsed datetime (day number since
1970-01-01), pandas `NaT`, or a raw string not yet run through
`pd.to_datetime`. -/
inductive DateCell where
  | parsed (day : Int)
  | notATime
  | raw (s : String)
deriving DecidableEq, Repr

/-- One row of the production dataset (`ProductionRecord` of the spec);
columns as read from the CSV. -/
structure Row where
  date : DateCell
  shift : String
  product_name : String
  operator_id : String
  planned : ℚ
  actual : ℚ
  raw_used : ℚ
  waste : ℚ
  downtime : ℚ
  run_time : ℚ
  downtime_reason : Option String
deriving DecidableEq, Repr

/-- Column sums used by `calculate_kpis` and `_derive_report_metrics`. -/
def totalActual (v : List Row) : ℚ := (v.map Row.actual).sum

def totalPlanned (v : List Row) : ℚ := (v.map Row.planned).sum

def totalRawUsed (v : List Row) : ℚ := (v.map Row.raw_used).sum

def totalWaste (v : List Row) : ℚ := (v.map Row.waste).sum

def totalDowntime (v : List Row) : ℚ := (v.map Row.downtime).sum

def totalRunTime (v : List Row) : ℚ := (v.map Row.run_time).sum

/-- Round a rational to the nearest integer, ties to even — the rounding
Python applies when formatting a numeric value with a fixed number of
decimals. -/
def roundHalfEvenQ (q : ℚ) : Int :=
  let f : Int := ⌊q⌋
  let r : ℚ := q - (f : ℚ)
  if r < 1 / 2 then f
  else if 1 / 2 < r then f + 1
  else if f % 2 = 0 then f else f + 1

/-- Insert thousands separators into the decimal digits of a natural
number (Python's `,` format flag). The input list is the digit characters
in reverse order; `k` counts digits emitted since the last separator. -/
def commaRev : List Char → Nat → List Char
  | [], _ => []
  | [c], _ => [c]
  | c :: t, k => if k = 2 then c :: ',' :: commaRev t 0 else c :: commaRev t (k + 1)

/-- Decimal digits of `n` with thousands separators. -/
def natCommaDigits (n : Nat) : String :=
  String.mk ((commaRev (toString n).toList.reverse 0).reverse)

/-- Left-pad a string with zeros to length `d`. -/
def padZeros (s : String) (d : Nat) : String :=
  String.mk (List.replicate (d - s.length) '0') ++ s

/-- Digit-and-sign assembly of Python fixed-point formatting, given the
value already scaled by `10 ^ d` and rounded: integer part (optionally
with thousands separators), then `d` fractional digits. -/
def fmtScaled (scaled : Nat) (d : Nat) (comma : Bool) (neg : Bool) : String :=
  let ip := scaled / Nat.pow 10 d
  let fp := scaled % Nat.pow 10 d
  let ipStr := if comma then natCommaDigits ip else toString ip
  let fpStr := if d = 0 then "" else "." ++ padZeros (toString fp) d
  (if neg then "-" else "") ++ ipStr ++ fpStr

/-- Python fixed-point float formatting `f"{q:.df}"` (with optional `,`
thousands flag) on an exact rational. -/
def fmtFixed (q : ℚ) (d : Nat) (comma : Bool) : String :=
  fmtScaled (roundHalfEvenQ (|q| * (10 : ℚ) ^ d)).toNat d comma (decide (q < 0))

/-- Python percent formatting `f"{q:.2%}"`. -/
def fmtPct2 (q : ℚ) : String := fmtFixed (q * 100) 2 false ++ "%"

/-- Python percent formatting `f"{q:.1%}"` applied to a possibly
non-finite pandas float (used on the `Share` column in both report
renderers). `float('nan')` formats as `nan`, infinities as `inf`/`-inf`. -/
def fmtSharePct : PFloat → String
  | PFloat.fin q => fmtFixed (q * 100) 1 false ++ "%"
  | PFloat.nan => "nan%"
  | PFloat.inf => "inf%"
  | PFloat.ninf => "-inf%"

/-- `dashboard.py` lines 12-37, `calculate_kpis(df)`: the ordered KPI
mapping of pre-formatted strings. -/
def calculate_kpis (v : List Row) : List (String × String) :=
  let production_efficiency := _safe_div (totalActual v) (totalPlanned v)
  let yield_rate := _safe_div (totalRawUsed v - totalWaste v) (totalRawUsed v)
  let utilization := _safe_div (totalRunTime v) (totalRunTime v + totalDowntime v)
  [("Total Production (Units)", fmtFixed (totalActual v) 0 true),
   ("Overall Efficiency", fmtPct2 production_efficiency),
   ("Raw Material Yield", fmtPct2 yield_rate),
   ("Total Waste (kg)", fmtFixed (totalWaste v) 1 true),
   ("Total Downtime (min)", fmtFixed (totalDowntime v) 0 true),
   ("Utilization Rate", fmtPct2 utilization)]

/-- A concrete row with all fields zeroed, for building test views. -/
def baseRow : Row :=
  { date := DateCell.parsed 0
    shift := "A"
    product_name := "P"
    operator_id := "O1"
    planned := 0
    actual := 0
    raw_used := 0
    waste := 0
    downtime := 0
    run_time := 0
    downtime_reason := none }

/-- Ascending comparison on the value column of a keyed total — the sort
key of `Series.sort_values` on a summed groupby result. -/
def valLe (a b : String × ℚ) : Prop := a.2 ≤ b.2

instance : DecidableRel valLe := fun a b => inferInstanceAs (Decidable (a.2 ≤ b.2))

instance : IsTotal (String × ℚ) valLe := ⟨fun a b => le_total a.2 b.2⟩

instance : IsTrans (String × ℚ) valLe := ⟨fun _ _ _ h1 h2 => le_trans h1 h2⟩

/-- Pandas `Series.sort_values(ascending=False)` on a keyed total:
`nargsort` reverses the values before its stable ascending argsort
(`non_nans = non_nans[::-1]`, `non_nan_idx = non_nan_idx[::-1]`) and
reverses the indexer after it (`indexer = indexer[::-1]`). The two
reversals cancel on equal values, so the descending sort is stable:
entries with equal values keep their original relative order. -/
def sort_values_desc (l : List (String × ℚ)) : List (String × ℚ) :=
  (List.insertionSort valLe l.reverse).reverse

/-- Pandas `groupby` key list: the distinct key values in ascending order
(`sort=True` default). -/
def groupby_keys (ks : List String) : List String :=
  List.insertionSort (· ≤ ·) ks.dedup

/-- Product-dimension group keys of `df.groupby('Product_Name')`. -/
def productKeys (v : List Row) : List String := groupby_keys (v.map Row.product_name)

/-- Shift-dimension group keys of `df.groupby('Shift')`. -/
def shiftKeys (v : List Row) : List String := groupby_keys (v.map Row.shift)

/-- Downtime-reason group keys of `df.groupby('Downtime_Reason')`: pandas
drops null keys (`dropna=True` default), so rows whose reason is absent
contribute no group. -/
def reasonKeys (v : List Row) : List String :=
  groupby_keys (v.filterMap Row.downtime_reason)

/-- Per-group column sum for a total (string-valued) grouping key. -/
def sumBy (v : List Row) (key : Row → String) (f : Row → ℚ) (k : String) : ℚ :=
  ((v.filter fun r => key r = k).map f).sum

/-- Per-reason downtime sum, `df.groupby('Downtime_Reason')['Downtime_Minutes'].sum()`. -/
def sumByReason (v : List Row) (k : String) : ℚ :=
  ((v.filter fun r => r.downtime_reason = some k).map Row.downtime).sum

/-- The summed actuals of the product aggregation,
`product['Actual_Production_Units'].sum()` (denominator of `Share`). -/
def productShareTotal (v : List Row) : ℚ :=
  ((productKeys v).map (sumBy v Row.product_name Row.actual)).sum

/-- The `Share` column of the product aggregation, `reports.py` line 96:
plain pandas division, NOT `_safe_div`. -/
def productShare (v : List Row) : List PFloat :=
  (productKeys v).map fun k =>
    pdiv (sumBy v Row.product_name Row.actual k) (productShareTotal v)

/-- The downtime-by-reason aggregation, `reports.py` line 124:
`df.groupby('Downtime_Reason')['Downtime_Minutes'].sum().sort_values(ascending=False)`. -/
def downtime_agg (v : List Row) : List (String × ℚ) :=
  sort_values_desc ((reasonKeys v).map fun k => (k, sumByReason v k))

/-- The `Downtime_per_Unit` column of the shift aggregation, `reports.py`
lines 111-113. -/
def shiftDPUs (v : List Row) : List ℚ :=
  (shiftKeys v).map fun k =>
    _safe_div (sumBy v Row.shift Row.downtime k) (sumBy v Row.shift Row.actual k)

/-- Rows of the spec's example scenario 2: downtime reasons A, B, C first
appearing in that order, with totals 30, 30, 10. -/
def exReasonRow (s : String) (m : ℚ) : Row :=
  { baseRow with downtime_reason := some s, downtime := m }

def exReasonsView : List Row :=
  [exReasonRow "A" 30, exReasonRow "B" 30, exReasonRow "C" 10]

/-- Same totals, but the reasons first appear in the order B, A, C —
distinguishing first-appearance order from alphabetical group order. -/
def exReasonsSwapped : List Row :=
  [exReasonRow "B" 30, exReasonRow "A" 30, exReasonRow "C" 10]

/-- Pandas `astype(str)` on the `Downtime_Reason` column (`dashboard.py`
lines 102 and 109): a null (NaN) reason stringifies to `"nan"`, any other
reason to itself. -/
def strOfReason : Option String → String
  | some s => s
  | none => "nan"

/-- Pandas `Series.unique()`: distinct values in order of first
appearance (no sorting). `seen` accumulates the values already emitted. -/
def uniqueFirstAux (seen : List String) : List String → List String
  | [] => []
  | a :: t => if a ∈ seen then uniqueFirstAux seen t else a :: uniqueFirstAux (a :: seen) t

def uniqueFirst (l : List String) : List String := uniqueFirstAux [] l

/-- The downtime-reason filter options of `create_filters`
(`dashboard.py` line 102): `df_filtered['Downtime_Reason'].astype(str).unique()`. -/
def reasonOptions (v : List Row) : List String :=
  uniqueFirst (v.map fun r => strOfReason r.downtime_reason)

/-- Recommendation message of `reports.py` line 351 (efficiency rule). -/
def recPlanning : String :=
  "Review planning accuracy and line balancing to improve plan attainment."

/-- Recommendation message of `reports.py` line 353 (yield rule). -/
def recMaterial : String :=
  "Investigate material losses and tighten quality control checkpoints."

/-- Recommendation message of `reports.py` line 356 (downtime rule),
naming the top downtime reason. -/
def recDowntimeMsg (reason : String) : String :=
  "Focus downtime reduction on " ++ reason ++ " through preventive maintenance and SOP refresh."

/-- Recommendation message of `reports.py` line 358 (shift-variability rule). -/
def recShifts : String :=
  "Standardize best practices across shifts to reduce variability."

/-- Fallback message of `reports.py` line 360. -/
def recFallback : String :=
  "Maintain current operating practices and continue monitoring key drivers."

/-- `downtime.iloc[0]['Downtime_Reason'] if not downtime.empty else
"unknown causes"` (`reports.py` line 355). -/
def topReasonOf (downtime : List (String × ℚ)) : String :=
  match downtime with
  | [] => "unknown causes"
  | p :: _ => p.1

/-- The shift-variability condition of `reports.py` line 357:
`shift['Downtime_per_Unit'].max() > shift['Downtime_per_Unit'].mean() * 1.2`.
On an empty shift table both sides are NaN and the comparison is false. -/
def shiftRuleFiresB (dpus : List ℚ) : Bool :=
  match dpus.max? with
  | none => false
  | some m => decide ((dpus.sum / (dpus.length : ℚ)) * (12 / 10) < m)

/-- The recommendation list of `reports.py` lines 349-360 (identical in
`generate_docx_report`, lines 556-567): each threshold rule is evaluated
independently and appends its message; if none fired, exactly the one
fallback message is emitted. -/
def recommendations (efficiency yield_rate total_downtime : ℚ)
    (dpus : List ℚ) (downtime : List (String × ℚ)) : List String :=
  let recs :=
    (if efficiency < 95 / 100 then [recPlanning] else []) ++
    (if yield_rate < 97 / 100 then [recMaterial] else []) ++
    (if 0 < total_downtime then [recDowntimeMsg (topReasonOf downtime)] else []) ++
    (if shiftRuleFiresB dpus then [recShifts] else [])
  if recs.isEmpty then [recFallback] else recs

/-- Day number of a date cell. Only the `parsed` constructor is meaningful:
views reaching `generate_insights` went through `pd.to_datetime`. -/
def dayOf : DateCell → Int
  | DateCell.parsed d => d
  | DateCell.notATime => 0
  | DateCell.raw _ => 0

/-- Weekly bin index of pandas `resample('W')` (weeks ending Sunday):
day 0 = 1970-01-01 is a Thursday, so day 3 is a Sunday and days
`7k - 3 .. 7k + 3` share bin `k`. -/
def wkIdx (d : Int) : Int := (d + 3).fdiv 7

/-- Minimum day of a view's `Date` column. -/
def minDay (v : List Row) : Int :=
  match v with
  | [] => 0
  | r :: t => t.foldl (fun m x => min m (dayOf x.date)) (dayOf r.date)

/-- Maximum day of a view's `Date` column. -/
def maxDay (v : List Row) : Int :=
  match v with
  | [] => 0
  | r :: t => t.foldl (fun m x => max m (dayOf x.date)) (dayOf r.date)

/-- Number of weekly bins `resample('W')` creates: one per week between
the first and the last date, empty weeks included. -/
def numWeeks (v : List Row) : Int := wkIdx (maxDay v) - wkIdx (minDay v) + 1

/-- Total actual production of the rows falling into weekly bin `w`. -/
def weekProd (v : List Row) (w : Int) : ℚ :=
  ((v.filter fun r => wkIdx (dayOf r.date) = w).map Row.actual).sum

/-- `df_weekly[...].iloc[-1]`: the most recent weekly bucket's production. -/
def lastWeekProd (v : List Row) : ℚ := weekProd v (wkIdx (maxDay v))

/-- `df_weekly[...].iloc[-2]`: the second-most-recent weekly bucket's
production (0 when that week has no rows — resample fills empty bins). -/
def prevWeekProd (v : List Row) : ℚ := weekProd v (wkIdx (maxDay v) - 1)

/-- The trend sentence of `generate_insights` (`dashboard.py` lines
123-139). -/
def trendInsight (v : List Row) : String :=
  if 2 ≤ numWeeks v then
    if prevWeekProd v ≠ 0 then
      let change := (lastWeekProd v - prevWeekProd v) / prevWeekProd v * 100
      let trend := if 0 ≤ change then "increased" else "decreased"
      "Production Trend: Total output has **" ++ trend ++ " by "
        ++ fmtFixed |change| 1 false
        ++ "%** compared to the previous reporting period."
    else "Production Trend: Comparison to previous period is not possible (zero production)."
  else "Production Trend: Only one or less weeks of data available in the current filter selection for trend analysis."

/-- The product aggregation keyed totals (used for the best-product
insight and the product table). -/
def productTotals (v : List Row) : List (String × ℚ) :=
  (productKeys v).map fun k => (k, sumBy v Row.product_name Row.actual k)

/-- The best-product sentence of `generate_insights` (`dashboard.py`
lines 142-147): present whenever the per-product summary is non-empty. -/
def bestProductMsgList (v : List Row) : List String :=
  match sort_values_desc (productTotals v) with
  | [] => []
  | p :: _ => ["Highest Volume: **" ++ p.1 ++ "** is the highest produced product."]

/-- The top-downtime sentence of `generate_insights` (`dashboard.py`
lines 149-154): present only when the downtime-by-reason summary is
non-empty (null reasons having been dropped by groupby). -/
def topDowntimeMsgList (v : List Row) : List String :=
  match downtime_agg v with
  | [] => []
  | p :: _ => ["Actionable Insight: The primary cause of stoppages is **" ++ p.1
      ++ "**, accounting for **" ++ fmtFixed p.2 0 true ++ " minutes** of downtime."]

/-- The sentence list joined by `generate_insights` on a non-empty view. -/
def insightParts (v : List Row) : List String :=
  trendInsight v :: (bestProductMsgList v ++ topDowntimeMsgList v)

/-- `dashboard.py` lines 116-156, `generate_insights(df)`: the sentinel on
an empty view, otherwise the " | "-joined sentences. -/
def generate_insights (v : List Row) : String :=
  if v = [] then "No data available to generate insights."
  else String.intercalate " | " (insightParts v)

/-- Two rows a week apart, both weeks productive (previous week 5 units). -/
def exTwoWeeks : List Row :=
  [{ baseRow with actual := 5 }, { baseRow with date := DateCell.parsed 7, actual := 10 }]

/-- Two rows a week apart, previous week produced zero units. -/
def exZeroPrev : List Row :=
  [{ baseRow with actual := 0 }, { baseRow with date := DateCell.parsed 7, actual := 10 }]

/-- Day count since 1970-01-01 of a proleptic Gregorian civil date
(`days_from_civil`); the day-number arithmetic behind datetime parsing. -/
def daysFromCivil (y m d : Int) : Int :=
  let y' := if m ≤ 2 then y - 1 else y
  let era := (if 0 ≤ y' then y' else y' - 399) / 400
  let yoe := y' - era * 400
  let mp := (m + 9) % 12
  let doy := (153 * mp + 2) / 5 + d - 1
  let doe := yoe * 365 + yoe / 4 - yoe / 100 + doy
  era * 146097 + doe - 719468

/-- ISO `YYYY-MM-DD` date-string parsing (the format of the dataset's
`Date` column); anything else fails. -/
def parseIsoDate (s : String) : Option Int :=
  match s.splitOn "-" with
  | [ys, ms, ds] =>
    match ys.toNat?, ms.toNat?, ds.toNat? with
    | some y, some m, some d =>
      if 1 ≤ m ∧ m ≤ 12 ∧ 1 ≤ d ∧ d ≤ 31 then some (daysFromCivil y m d) else none
    | _, _, _ => none
  | _ => none

/-- Strict `pd.to_datetime` on one cell: datetimes and `NaT` pass through
unchanged, a raw string must parse or the call raises (`none`). -/
def to_datetime_strict : DateCell → Option DateCell
  | DateCell.parsed d => some (DateCell.parsed d)
  | DateCell.notATime => some DateCell.notATime
  | DateCell.raw s => (parseIsoDate s).map DateCell.parsed

/-- `pd.to_datetime(..., errors='coerce')` on one cell: an unparseable
string becomes `NaT` instead of raising (`chatbot.py` line 42). -/
def to_datetime_coerce : DateCell → DateCell
  | DateCell.parsed d => DateCell.parsed d
  | DateCell.notATime => DateCell.notATime
  | DateCell.raw s =>
    match parseIsoDate s with
    | some d => DateCell.parsed d
    | none => DateCell.notATime

/-- Strict `df['Date'] = pd.to_datetime(df['Date'])` over the whole
column; `none` models the raised exception. -/
def parse_dates_strict (df : List Row) : Option (List Row) :=
  df.mapM fun r => (to_datetime_strict r.date).map fun c => { r with date := c }

/-- A CSV input file as `load_data` (`data_loader.py` lines 19-33) sees
it: unreadable/malformed, readable but lacking the required `Date` column
(`df['Date']` raises `KeyError`), or well-formed rows. -/
inductive CsvFile where
  | malformed
  | missingDateColumn (rows : List Row)
  | wellFormed (rows : List Row)

/-- `data_loader.py` lines 19-33, `load_data(file_path)`: read the CSV,
parse the `Date` column, prepend `Row_ID = df.index`; ANY exception is
caught and an EMPTY dataframe is returned. -/
def load_data : CsvFile → List (Nat × Row)
  | CsvFile.malformed => []
  | CsvFile.missingDateColumn _ => []
  | CsvFile.wellFormed rows =>
    match parse_dates_strict rows with
    | some rows' => rows'.enum
    | none => []

/-- The per-session state holding the loaded dataset
(`st.session_state['df']`). -/
structure SessionState where
  df : List (Nat × Row)
deriving DecidableEq

/-- `data_loader.py` line 64 (also 49 and 72): loading a file assigns
`load_data`'s result to `st.session_state['df']` unconditionally. -/
def upload_new_csv (_s : SessionState) (f : CsvFile) : SessionState :=
  { df := load_data f }

/-- The load attempts on which `load_data` hits its `except` branch. -/
def load_failed : CsvFile → Prop
  | CsvFile.malformed => True
  | CsvFile.missingDateColumn _ => True
  | CsvFile.wellFormed rows => parse_dates_strict rows = none

/-- The filter parameters of `create_filters` (`dashboard.py` lines
61-114): the chosen date range and the four categorical selections. -/
structure FilterParams where
  start_day : Int
  end_day : Int
  selected_shifts : List String
  selected_products : List String
  selected_operators : List String
  selected_reasons : List String

/-- The date-range test of `dashboard.py` line 87:
`(df['Date'] >= start_date) & (df['Date'] < end_date)` with
`end_date = end + 1 day`; a `NaT` date satisfies neither comparison. -/
def dateInRangeB (c : DateCell) (startd endd : Int) : Bool :=
  match c with
  | DateCell.parsed d => decide (startd ≤ d ∧ d < endd + 1)
  | DateCell.notATime => false
  | DateCell.raw _ => false

/-- The categorical `isin` conjunction of `dashboard.py` lines 105-110
(`downtime_reason` stringified before matching). -/
def row_matches (r : Row) (p : FilterParams) : Bool :=
  decide (r.shift ∈ p.selected_shifts) &&
  decide (r.product_name ∈ p.selected_products) &&
  decide (r.operator_id ∈ p.selected_operators) &&
  decide (strOfReason r.downtime_reason ∈ p.selected_reasons)

/-- `dashboard.py` lines 61-114, `create_filters(df)`: first mutates the
dataframe in place with `df['Date'] = pd.to_datetime(df['Date'])` (strict
— `none` models the raised exception), then filters by date range and by
the categorical selections. Returns the filtered view TOGETHER with the
post-call contents of the input dataframe, so that the in-place column
assignment is observable. -/
def create_filters (df : List Row) (p : FilterParams) : Option (List Row × List Row) :=
  (parse_dates_strict df).map fun df' =>
    ((df'.filter fun r => dateInRangeB r.date p.start_day p.end_day).filter
       (fun r => row_matches r p),
     df')

/-- `chatbot.py` lines 34-75, the dataframe contents after
`condense_dataframe_for_ai` ran `df['Date'] = pd.to_datetime(df['Date'],
errors='coerce')` in place (the only statement of the function that
writes into the dataframe). -/
def condense_post (df : List Row) : List Row :=
  df.map fun r => { r with date := to_datetime_coerce r.date }

/-- A date cell that is already a datetime value (parsed or `NaT`) — the
invariant `load_data` establishes for the loaded dataset. -/
def isDatetimeCell : DateCell → Prop
  | DateCell.raw _ => False
  | _ => True

/-- The spec's example scenario 1: rows {actual=100, planned=120} and
{actual=80, planned=80}. -/
def exKpiView : List Row :=
  [{ baseRow with actual := 100, planned := 120 },
   { baseRow with actual := 80, planned := 80 }]

/-- A one-row view with positive actual production and zero raw material
used (the spec's example scenario 3 shape). -/
def exYieldView : List Row := [{ baseRow with actual := 100 }]

/-- A one-row view with zero actual production (and some raw material
used), making the product `Share` denominator 0. -/
def exNanShareView : List Row := [{ baseRow with raw_used := 5 }]

lemma fmtFixed_of_nonneg {q : ℚ} {n : Nat} (d : Nat) (c : Bool)
    (h0 : 0 ≤ q) (h1 : roundHalfEvenQ (q * (10 : ℚ) ^ d) = (n : Int)) :
    fmtFixed q d c = fmtScaled n d c false := by
  rw [fmtFixed, abs_of_nonneg h0, h1, decide_eq_false (not_lt.mpr h0)]
  simp

lemma fmtPct2_of_nonneg {q : ℚ} {n : Nat}
    (h0 : 0 ≤ q) (h1 : roundHalfEvenQ (q * 100 * (10 : ℚ) ^ 2) = (n : Int)) :
    fmtPct2 q = fmtScaled n 2 false false ++ "%" := by
  rw [fmtPct2, fmtFixed_of_nonneg 2 false (by positivity) h1]

lemma sum_map_filter_partition (f : Row → ℚ) (p : Row → Bool) :
    ∀ v : List Row,
      ((v.filter p).map f).sum + ((v.filter fun r => !(p r)).map f).sum = (v.map f).sum := by
  intro v
  induction v with
  | nil => simp
  | cons a t ih =>
    by_cases h : p a = true
    · simp [List.filter_cons, h, ← ih]
      ring
    · simp only [Bool.not_eq_true] at h
      simp [List.filter_cons, h, ← ih]
      ring

lemma sum_over_keys (f : Row → ℚ) (key : Row → String) :
    ∀ (ks : List String) (v : List Row), ks.Nodup → (∀ r ∈ v, key r ∈ ks) →
      (ks.map fun k => ((v.filter fun r => key r = k).map f).sum).sum = (v.map f).sum := by
  intro ks
  induction ks with
  | nil =>
    intro v _ hmem
    have hv : v = [] := List.eq_nil_iff_forall_not_mem.2 fun r hr => by simpa using hmem r hr
    simp [hv]
  | cons k t ih =>
    intro v hnd hmem
    rw [List.nodup_cons] at hnd
    set vrest := v.filter (fun r => !(decide (key r = k))) with hvrest
    have hmemrest : ∀ r ∈ vrest, key r ∈ t := by
      intro r hr
      rw [hvrest, List.mem_filter] at hr
      have h2 : ¬ key r = k := by simpa using hr.2
      rcases List.mem_cons.1 (hmem r hr.1) with h | h
      · exact absurd h h2
      · exact h
    have hgroups : ∀ k' ∈ t,
        (v.filter fun r => key r = k') = (vrest.filter fun r => key r = k') := by
      intro k' hk'
      rw [hvrest, List.filter_filter]
      apply List.filter_congr
      intro r _
      by_cases h : key r = k'
      · have hne : ¬ k' = k := fun hk => hnd.1 (hk ▸ hk')
        simp [h, hne]
      · simp [h]
    have hsum_t : (t.map fun k' => ((v.filter fun r => key r = k').map f).sum).sum
        = (t.map fun k' => ((vrest.filter fun r => key r = k').map f).sum).sum := by
      apply congrArg List.sum
      apply List.map_congr_left
      intro k' hk'
      rw [hgroups k' hk']
    calc (((k :: t).map fun k' => ((v.filter fun r => key r = k').map f).sum)).sum
        = ((v.filter fun r => key r = k).map f).sum
          + (t.map fun k' => ((v.filter fun r => key r = k').map f).sum).sum := by
          simp
      _ = ((v.filter fun r => key r = k).map f).sum + (vrest.map f).sum := by
          rw [hsum_t, ih vrest hnd.2 hmemrest]
      _ = (v.map f).sum := by
          rw [hvrest]
          exact sum_map_filter_partition f (fun r => decide (key r = k)) v

lemma mem_groupby_keys {ks : List String} {k : String} : k ∈ groupby_keys ks ↔ k ∈ ks := by
  simp [groupby_keys, List.mem_insertionSort, List.mem_dedup]

lemma nodup_groupby_keys (ks : List String) : (groupby_keys ks).Nodup :=
  ((List.perm_insertionSort _ _).nodup_iff).2 (List.nodup_dedup ks)

lemma productShareTotal_eq_totalActual (v : List Row) :
    productShareTotal v = totalActual v := by
  rw [productShareTotal, totalActual]
  exact sum_over_keys Row.actual Row.product_name (productKeys v) v
    (nodup_groupby_keys _)
    (fun r hr => mem_groupby_keys.2 (List.mem_map_of_mem Row.product_name hr))

lemma list_sum_div (l : List ℚ) (d : ℚ) : (l.map fun x => x / d).sum = l.sum / d := by
  induction l with
  | nil => simp
  | cons a t ih => simp [ih, add_div]

lemma list_sum_zero_of_nonneg {l : List ℚ} (hnn : ∀ x ∈ l, 0 ≤ x) (h0 : l.sum = 0) :
    ∀ x ∈ l, x = 0 := by
  induction l with
  | nil => simp
  | cons a t ih =>
    rw [List.sum_cons] at h0
    have hta : 0 ≤ a := hnn a (List.mem_cons_self a t)
    have htsum : 0 ≤ t.sum := List.sum_nonneg fun x hx => hnn x (List.mem_cons_of_mem a hx)
    have ha : a = 0 := by linarith
    have ht : t.sum = 0 := by linarith
    intro x hx
    rcases List.mem_cons.1 hx with rfl | hx
    · exact ha
    · exact ih (fun y hy => hnn y (List.mem_cons_of_mem a hy)) ht x hx

/-- C1 (amended). In the per-product aggregation, when the view's total
actual production is positive every `Share` entry is the finite rational
`group actual / total actual` and the shares sum to exactly 1; but when
the total actual is 0 (with non-negative per-row actuals) every `Share`
entry is NaN — the un-guarded pandas division `0 / 0` — not 0, so the
computation does yield a non-finite value in that case. -/
theorem C1_product_share (v : List Row) :
    (0 < totalActual v →
      productShare v = ((productKeys v).map fun k =>
        PFloat.fin (sumBy v Row.product_name Row.actual k / totalActual v)) ∧
      ((productKeys v).map fun k =>
        sumBy v Row.product_name Row.actual k / totalActual v).sum = 1) ∧
    ((∀ r ∈ v, 0 ≤ r.actual) → totalActual v = 0 →
      ∀ s ∈ productShare v, s = PFloat.nan) := by
  constructor
  · intro hpos
    have hT : totalActual v ≠ 0 := ne_of_gt hpos
    have hTot : productShareTotal v = totalActual v := productShareTotal_eq_totalActual v
    constructor
    · rw [productShare]
      apply List.map_congr_left
      intro k _
      rw [hTot, pdiv, if_neg hT]
    · have hmm : ((productKeys v).map fun k =>
          sumBy v Row.product_name Row.actual k / totalActual v)
          = ((productKeys v).map (sumBy v Row.product_name Row.actual)).map
            fun x => x / totalActual v := by
        rw [List.map_map]
        rfl
      rw [hmm, list_sum_div]
      rw [show ((productKeys v).map (sumBy v Row.product_name Row.actual)).sum
            = productShareTotal v from rfl, hTot, div_self hT]
  · intro hnn h0
    have hzero : ∀ r ∈ v, r.actual = 0 := by
      intro r hr
      have := list_sum_zero_of_nonneg (l := v.map Row.actual)
        (fun x hx => by
          rcases List.mem_map.1 hx with ⟨r', hr', rfl⟩
          exact hnn r' hr') h0 r.actual (List.mem_map_of_mem Row.actual hr)
      exact this
    intro s hs
    rw [productShare] at hs
    rcases List.mem_map.1 hs with ⟨k, _, rfl⟩
    have hnum : sumBy v Row.product_name Row.actual k = 0 := by
      apply List.sum_eq_zero
      intro x hx
      rcases List.mem_map.1 hx with ⟨r, hr, rfl⟩
      exact hzero r (List.mem_filter.1 hr).1
    rw [hnum, productShareTotal_eq_totalActual, h0]
    simp [pdiv]

/-- C1 witness: a view with positive total (two products, actuals 100 and
80) has finite shares summing to 1, and a one-row view with actual 0 has a
NaN share. -/
theorem C1_product_share_witness :
    (0 < totalActual [{ baseRow with actual := 100, product_name := "P1" },
                      { baseRow with actual := 80, product_name := "P2" }]) ∧
    (((productKeys [{ baseRow with actual := 100, product_name := "P1" },
                    { baseRow with actual := 80, product_name := "P2" }]).map fun k =>
        sumBy [{ baseRow with actual := 100, product_name := "P1" },
               { baseRow with actual := 80, product_name := "P2" }]
          Row.product_name Row.actual k /
        totalActual [{ baseRow with actual := 100, product_name := "P1" },
                     { baseRow with actual := 80, product_name := "P2" }]).sum = 1) ∧
    ((∀ r ∈ [{ baseRow with actual := 0 }], (0:ℚ) ≤ r.actual) ∧
      totalActual [{ baseRow with actual := 0 }] = 0 ∧
      ∀ s ∈ productShare [{ baseRow with actual := 0 }], s = PFloat.nan) := by
  refine ⟨?_, ?_, ?_, ?_, ?_⟩
  · norm_num [totalActual, baseRow]
  · exact ((C1_product_share _).1 (by norm_num [totalActual, baseRow])).2
  · intro r hr
    rcases List.mem_singleton.1 hr with rfl
    norm_num [baseRow]
  · norm_num [totalActual, baseRow]
  · exact (C1_product_share _).2
      (by
        intro r hr
        rcases List.mem_singleton.1 hr with rfl
        norm_num [baseRow])
      (by norm_num [totalActual, baseRow])

/-- C1 counterexample: on a one-row view whose actual production is 0, the
`Share` column is `[NaN]`, not `[0]` — refuting the claim that a zero
total yields share 0 for every group and never a non-finite value. -/
theorem C1_product_share_counterexample :
    productShare [{ baseRow with actual := 0 }] = [PFloat.nan] ∧
    PFloat.nan ≠ PFloat.fin 0 := by
  constructor
  · have h := (C1_product_share [{ baseRow with actual := 0 }]).2
      (by
        intro r hr
        rcases List.mem_singleton.1 hr with rfl
        norm_num [baseRow])
      (by norm_num [totalActual, baseRow])
    have hkeys : productKeys [{ baseRow with actual := 0 }] = ["P"] := by
      simp [productKeys, groupby_keys, baseRow]
    have hlen : (productShare [{ baseRow with actual := 0 }]).length = 1 := by
      rw [productShare, hkeys]
      simp
    match hps : productShare [{ baseRow with actual := 0 }] with
    | [] => rw [hps] at hlen; simp at hlen
    | [s] =>
      have := h s (by rw [hps]; exact List.mem_singleton_self s)
      rw [this]
    | s :: s' :: t => rw [hps] at hlen; simp at hlen
  · intro h
    exact PFloat.noConfusion h

lemma strLe_of_lt {a b : String} (h : a.toList < b.toList) : a ≤ b :=
  le_of_lt (String.lt_iff_toList_lt.2 h)

lemma sort_desc_example :
    sort_values_desc [("A", (30 : ℚ)), ("B", 30), ("C", 10)]
      = [("A", 30), ("B", 30), ("C", 10)] := by
  norm_num [sort_values_desc, List.insertionSort, List.orderedInsert, valLe]

lemma downtime_agg_example_eval :
    downtime_agg exReasonsView = [("A", 30), ("B", 30), ("C", 10)] := by
  have hfm : exReasonsView.filterMap Row.downtime_reason = ["A", "B", "C"] := by decide
  have hAB : ("A" : String) ≤ "B" := strLe_of_lt (by decide)
  have hBC : ("B" : String) ≤ "C" := strLe_of_lt (by decide)
  have hsorted : List.Sorted (· ≤ ·) ["A", "B", "C"] := by
    refine List.sorted_cons.2 ⟨?_, List.sorted_cons.2 ⟨?_, List.sorted_singleton "C"⟩⟩
    · intro b hb
      rcases List.mem_cons.1 hb with rfl | hb
      · exact hAB
      · rcases List.mem_singleton.1 hb with rfl
        exact le_trans hAB hBC
    · intro b hb
      rcases List.mem_singleton.1 hb with rfl
      exact hBC
  have hdd : List.dedup ["A", "B", "C"] = ["A", "B", "C"] := by decide
  have hkeys : reasonKeys exReasonsView = ["A", "B", "C"] := by
    rw [reasonKeys, hfm, groupby_keys, hdd, hsorted.insertionSort_eq]
  have hfA : exReasonsView.filter (fun r => r.downtime_reason = some "A")
      = [exReasonRow "A" 30] := by decide
  have hfB : exReasonsView.filter (fun r => r.downtime_reason = some "B")
      = [exReasonRow "B" 30] := by decide
  have hfC : exReasonsView.filter (fun r => r.downtime_reason = some "C")
      = [exReasonRow "C" 10] := by decide
  have hvA : sumByReason exReasonsView "A" = 30 := by
    rw [sumByReason, hfA]
    norm_num [exReasonRow, baseRow]
  have hvB : sumByReason exReasonsView "B" = 30 := by
    rw [sumByReason, hfB]
    norm_num [exReasonRow, baseRow]
  have hvC : sumByReason exReasonsView "C" = 10 := by
    rw [sumByReason, hfC]
    norm_num [exReasonRow, baseRow]
  have hmap : ((reasonKeys exReasonsView).map fun k => (k, sumByReason exReasonsView k))
      = [("A", (30 : ℚ)), ("B", 30), ("C", 10)] := by
    rw [hkeys]
    simp [hvA, hvB, hvC]
  rw [downtime_agg, hmap, sort_desc_example]

lemma downtime_agg_swapped_eval :
    downtime_agg exReasonsSwapped = [("A", 30), ("B", 30), ("C", 10)] := by
  have hfm : exReasonsSwapped.filterMap Row.downtime_reason = ["B", "A", "C"] := by decide
  have hAC : ("A" : String) ≤ "C" := strLe_of_lt (by decide)
  have hBC : ("B" : String) ≤ "C" := strLe_of_lt (by decide)
  have hnBA : ¬ (("B" : String) ≤ "A") :=
    not_le.mpr (String.lt_iff_toList_lt.2 (by decide))
  have hdd : List.dedup ["B", "A", "C"] = ["B", "A", "C"] := by decide
  have e2 : List.orderedInsert (· ≤ ·) "A" ["C"] = ["A", "C"] := by
    simp only [List.orderedInsert]
    rw [if_pos hAC]
  have e3 : List.orderedInsert (· ≤ ·) "B" ["A", "C"] = ["A", "B", "C"] := by
    simp only [List.orderedInsert]
    rw [if_neg hnBA, if_pos hBC]
  have hsortStr : List.insertionSort (· ≤ ·) ["B", "A", "C"] = ["A", "B", "C"] := by
    simp only [List.insertionSort, List.orderedInsert_nil]
    rw [e2, e3]
  have hkeys : reasonKeys exReasonsSwapped = ["A", "B", "C"] := by
    rw [reasonKeys, hfm, groupby_keys, hdd, hsortStr]
  have hfA : exReasonsSwapped.filter (fun r => r.downtime_reason = some "A")
      = [exReasonRow "A" 30] := by decide
  have hfB : exReasonsSwapped.filter (fun r => r.downtime_reason = some "B")
      = [exReasonRow "B" 30] := by decide
  have hfC : exReasonsSwapped.filter (fun r => r.downtime_reason = some "C")
      = [exReasonRow "C" 10] := by decide
  have hvA : sumByReason exReasonsSwapped "A" = 30 := by
    rw [sumByReason, hfA]
    norm_num [exReasonRow, baseRow]
  have hvB : sumByReason exReasonsSwapped "B" = 30 := by
    rw [sumByReason, hfB]
    norm_num [exReasonRow, baseRow]
  have hvC : sumByReason exReasonsSwapped "C" = 10 := by
    rw [sumByReason, hfC]
    norm_num [exReasonRow, baseRow]
  have hmap : ((reasonKeys exReasonsSwapped).map fun k => (k, sumByReason exReasonsSwapped k))
      = [("A", (30 : ℚ)), ("B", 30), ("C", 10)] := by
    rw [hkeys]
    simp [hvA, hvB, hvC]
  rw [downtime_agg, hmap, sort_desc_example]

/-- C2 (amended). The downtime-by-reason aggregation is sorted descending
by total downtime minutes, and pandas' descending sort is stable (its two
internal reversals cancel on ties), so groups with equal totals keep the
order in which `groupby` created them — ascending alphabetical reason
order, NOT the order of first appearance in the view. On the spec's
example (reasons {A: 30, B: 30, C: 10} first appearing A, B, C) the
aggregation is [A(30), B(30), C(10)] as claimed, but only because
alphabetical order coincides with first appearance there: with the same
totals first appearing in the order B, A, C, the aggregation is still
[A(30), B(30), C(10)], with A before B. -/
theorem C2_downtime_sort (v : List Row) :
    List.Sorted (fun a b : String × ℚ => b.2 ≤ a.2) (downtime_agg v) ∧
    downtime_agg exReasonsView = [("A", 30), ("B", 30), ("C", 10)] ∧
    downtime_agg exReasonsSwapped = [("A", 30), ("B", 30), ("C", 10)] := by
  refine ⟨?_, downtime_agg_example_eval, downtime_agg_swapped_eval⟩
  rw [downtime_agg, sort_values_desc]
  exact List.pairwise_reverse.2 (List.sorted_insertionSort valLe _)

/-- C2 counterexample: the reasons carry equal totals {B: 30, A: 30} and
first appear in the view in the order B, A, C — yet the aggregation is
[A(30), B(30), C(10)], A before B (groupby's alphabetical order), so the
tie is NOT broken by the order in which the reason first appears in the
view. -/
theorem C2_downtime_sort_counterexample :
    exReasonsSwapped.filterMap Row.downtime_reason = ["B", "A", "C"] ∧
    downtime_agg exReasonsSwapped = [("A", 30), ("B", 30), ("C", 10)] ∧
    downtime_agg exReasonsSwapped ≠ [("B", 30), ("A", 30), ("C", 10)] := by
  refine ⟨by decide, downtime_agg_swapped_eval, ?_⟩
  rw [downtime_agg_swapped_eval]
  decide

lemma mem_uniqueFirstAux :
    ∀ (l seen : List String) (a : String), a ∈ l → a ∈ seen ∨ a ∈ uniqueFirstAux seen l := by
  intro l
  induction l with
  | nil => simp
  | cons b t ih =>
    intro seen a ha
    rcases List.mem_cons.1 ha with rfl | ha
    · by_cases hb : a ∈ seen
      · exact Or.inl hb
      · right
        simp only [uniqueFirstAux, if_neg hb]
        exact List.mem_cons_self _ _
    · by_cases hb : b ∈ seen
      · rcases ih seen a ha with h | h
        · exact Or.inl h
        · right
          simp only [uniqueFirstAux, if_pos hb]
          exact h
      · rcases ih (b :: seen) a ha with h | h
        · rcases List.mem_cons.1 h with rfl | h
          · right
            simp only [uniqueFirstAux, if_neg hb]
            exact List.mem_cons_self _ _
          · exact Or.inl h
        · right
          simp only [uniqueFirstAux, if_neg hb]
          exact List.mem_cons_of_mem _ h

lemma downtime_agg_perm (v : List Row) :
    List.Perm (downtime_agg v) ((reasonKeys v).map fun k => (k, sumByReason v k)) := by
  rw [downtime_agg, sort_values_desc]
  exact ((List.reverse_perm _).trans (List.perm_insertionSort _ _)).trans
    (List.reverse_perm _)

/-- C5 (amended). Rows with an absent/null `downtime_reason` are NOT kept
in the downtime-by-reason aggregation: `groupby('Downtime_Reason')` drops
null keys, so a reason `k` has a group exactly when some row carries the
non-null reason `k`. Null reasons survive only in the filter layer, where
`astype(str)` maps them to the `"nan"` bucket of the option list, which is
selectable like any other category. -/
theorem C5_null_reason_rows (v : List Row) :
    (∀ k : String,
      (∃ q, (k, q) ∈ downtime_agg v) ↔ some k ∈ v.map Row.downtime_reason) ∧
    (∀ r ∈ v, strOfReason r.downtime_reason ∈ reasonOptions v) ∧
    (∀ r : Row, r.downtime_reason = none → strOfReason r.downtime_reason = "nan") := by
  refine ⟨?_, ?_, ?_⟩
  · intro k
    constructor
    · rintro ⟨q, hq⟩
      have hq' := (downtime_agg_perm v).mem_iff.1 hq
      rcases List.mem_map.1 hq' with ⟨k', hk', heq⟩
      have hkk : k' = k := congrArg Prod.fst heq
      subst hkk
      have : k' ∈ v.filterMap Row.downtime_reason := by
        rw [reasonKeys] at hk'
        exact mem_groupby_keys.1 hk'
      rcases List.mem_filterMap.1 this with ⟨r, hr, hrk⟩
      rw [← hrk]
      exact List.mem_map_of_mem Row.downtime_reason hr
    · intro hk
      rcases List.mem_map.1 hk with ⟨r, hr, hrk⟩
      refine ⟨sumByReason v k, (downtime_agg_perm v).mem_iff.2 ?_⟩
      apply List.mem_map_of_mem
      rw [reasonKeys]
      exact mem_groupby_keys.2 (List.mem_filterMap.2 ⟨r, hr, hrk⟩)
  · intro r hr
    have := mem_uniqueFirstAux (v.map fun r => strOfReason r.downtime_reason) []
      (strOfReason r.downtime_reason)
      (List.mem_map_of_mem (fun r => strOfReason r.downtime_reason) hr)
    rcases this with h | h
    · exact absurd h (List.not_mem_nil _)
    · exact h
  · intro r hrn
    rw [hrn]
    rfl

/-- C5 witness: in a one-row view whose reason is null, the stringified
reason `"nan"` is among the filter options, and no reason at all has a
group in the downtime aggregation. -/
theorem C5_null_reason_rows_witness :
    (({ baseRow with downtime := 10 } : Row) ∈ [{ baseRow with downtime := 10 }] ∧
      strOfReason ({ baseRow with downtime := 10 } : Row).downtime_reason
        ∈ reasonOptions [{ baseRow with downtime := 10 }]) ∧
    (({ baseRow with downtime := 10 } : Row).downtime_reason = none ∧
      strOfReason ({ baseRow with downtime := 10 } : Row).downtime_reason = "nan") := by
  constructor
  · refine ⟨List.mem_singleton_self _, ?_⟩
    exact (C5_null_reason_rows [{ baseRow with downtime := 10 }]).2.1 _
      (List.mem_singleton_self _)
  · refine ⟨rfl, ?_⟩
    exact (C5_null_reason_rows [{ baseRow with downtime := 10 }]).2.2 _ rfl

/-- C5 counterexample: a one-row view whose `downtime_reason` is null and
whose downtime is 10 minutes produces an EMPTY downtime-by-reason
aggregation — the row is dropped, its 10 minutes appear in no bucket —
refuting "those rows are never dropped from any downtime-reason
aggregation". -/
theorem C5_null_reason_rows_counterexample :
    downtime_agg [{ baseRow with downtime := 10 }] = [] ∧
    ({ baseRow with downtime := 10 } : Row).downtime_reason = none ∧
    ({ baseRow with downtime := 10 } : Row).downtime = 10 := by
  refine ⟨?_, rfl, rfl⟩
  rw [downtime_agg]
  have hk : reasonKeys [{ baseRow with downtime := 10 }] = [] := by decide
  rw [hk]
  rfl

lemma ne_of_head {a b : String} (h : a.data.head? ≠ b.data.head?) : a ≠ b :=
  fun he => h (congrArg (fun s => s.data.head?) he)

lemma recDowntimeMsg_head (r : String) : (recDowntimeMsg r).data.head? = some 'F' := by
  show ((("Focus downtime reduction on " : String) ++ r)
    ++ " through preventive maintenance and SOP refresh.").data.head? = some 'F'
  rw [String.data_append, String.data_append]
  rfl

lemma recDowntimeMsg_ne_planning (r : String) : recDowntimeMsg r ≠ recPlanning :=
  ne_of_head (by rw [recDowntimeMsg_head]; decide)

lemma recDowntimeMsg_ne_material (r : String) : recDowntimeMsg r ≠ recMaterial :=
  ne_of_head (by rw [recDowntimeMsg_head]; decide)

lemma recDowntimeMsg_ne_shifts (r : String) : recDowntimeMsg r ≠ recShifts :=
  ne_of_head (by rw [recDowntimeMsg_head]; decide)

lemma recDowntimeMsg_ne_fallback (r : String) : recDowntimeMsg r ≠ recFallback :=
  ne_of_head (by rw [recDowntimeMsg_head]; decide)

/-- C9. For every metrics/shift/downtime input the recommendation output:
is never empty; contains each threshold rule's message exactly when that
rule fires (the rules are independent, none mutually exclusive); and is
exactly the single fallback message when no rule fires. -/
theorem C9_recommendations (e y td : ℚ) (dpus : List ℚ) (dt : List (String × ℚ)) :
    recommendations e y td dpus dt ≠ [] ∧
    (recPlanning ∈ recommendations e y td dpus dt ↔ e < 95 / 100) ∧
    (recMaterial ∈ recommendations e y td dpus dt ↔ y < 97 / 100) ∧
    (recDowntimeMsg (topReasonOf dt) ∈ recommendations e y td dpus dt ↔ 0 < td) ∧
    (recShifts ∈ recommendations e y td dpus dt ↔ shiftRuleFiresB dpus = true) ∧
    (recommendations e y td dpus dt = [recFallback] ↔
      ¬ e < 95 / 100 ∧ ¬ y < 97 / 100 ∧ ¬ 0 < td ∧ shiftRuleFiresB dpus = false) := by
  have n12 : recPlanning ≠ recMaterial := by decide
  have n14 : recPlanning ≠ recShifts := by decide
  have n15 : recPlanning ≠ recFallback := by decide
  have n24 : recMaterial ≠ recShifts := by decide
  have n25 : recMaterial ≠ recFallback := by decide
  have n45 : recShifts ≠ recFallback := by decide
  have n31 := recDowntimeMsg_ne_planning (topReasonOf dt)
  have n32 := recDowntimeMsg_ne_material (topReasonOf dt)
  have n34 := recDowntimeMsg_ne_shifts (topReasonOf dt)
  have n35 := recDowntimeMsg_ne_fallback (topReasonOf dt)
  by_cases h1 : e < 95 / 100 <;> by_cases h2 : y < 97 / 100 <;>
    by_cases h3 : 0 < td <;> rcases hb : shiftRuleFiresB dpus with _ | _ <;>
    simp [recommendations, h1, h2, h3, hb, n12, n14, n15, n24, n25, n45,
      n31, n32, n34, n35, n12.symm, n14.symm, n15.symm, n24.symm, n25.symm,
      n45.symm, n31.symm, n32.symm, n34.symm, n35.symm]

/-- C9 witness: with all ratios healthy, no downtime and no shift table,
the output is exactly the fallback; with efficiency 0.5 the planning
message is present. -/
theorem C9_recommendations_witness :
    recommendations 1 1 0 [] [] = [recFallback] ∧
    recPlanning ∈ recommendations (1 / 2) 1 0 [] [] := by
  constructor
  · exact (C9_recommendations 1 1 0 [] []).2.2.2.2.2.mpr
      ⟨by norm_num, by norm_num, by norm_num, rfl⟩
  · exact (C9_recommendations (1 / 2) 1 0 [] []).2.1.mpr (by norm_num)

lemma dedup_const {l : List String} {s : String} (hne : l ≠ []) (h : ∀ x ∈ l, x = s) :
    l.dedup = [s] := by
  induction l with
  | nil => exact absurd rfl hne
  | cons a t ih =>
    have ha : a = s := h a (List.mem_cons_self a t)
    subst ha
    cases t with
    | nil => simp
    | cons b t' =>
      have hb : b = a := h b (List.mem_cons_of_mem a (List.mem_cons_self b t'))
      have hmem : a ∈ b :: t' := by rw [hb]; exact List.mem_cons_self _ _
      rw [List.dedup_cons_of_mem hmem]
      exact ih (List.cons_ne_nil _ _) fun x hx => h x (List.mem_cons_of_mem a hx)

lemma safe_div_nonneg {a b : ℚ} (ha : 0 ≤ a) (hb : 0 ≤ b) : 0 ≤ _safe_div a b := by
  rw [_safe_div]
  split
  · norm_num
  · exact div_nonneg ha hb

/-- C10. In a non-empty view whose rows all carry the same shift value
(and non-negative downtime and actual units, as the data model states),
the standardize-shift-practices rule can never fire: the shift table has a
single group, whose downtime-per-unit is simultaneously the max and the
mean, and a non-negative `d` never satisfies `d > d * 1.2`. -/
theorem C10_single_shift (v : List Row) (s0 : String) (hne : v ≠ [])
    (hs : ∀ r ∈ v, r.shift = s0) (hdn : ∀ r ∈ v, 0 ≤ r.downtime)
    (han : ∀ r ∈ v, 0 ≤ r.actual) :
    shiftRuleFiresB (shiftDPUs v) = false := by
  have hmapne : v.map Row.shift ≠ [] := by
    cases v with
    | nil => exact absurd rfl hne
    | cons a t => simp
  have hconst : ∀ x ∈ v.map Row.shift, x = s0 := by
    intro x hx
    rcases List.mem_map.1 hx with ⟨r, hr, rfl⟩
    exact hs r hr
  have hkeys : shiftKeys v = [s0] := by
    rw [shiftKeys, groupby_keys, dedup_const hmapne hconst]
    rfl
  have hdpus : shiftDPUs v =
      [_safe_div (sumBy v Row.shift Row.downtime s0) (sumBy v Row.shift Row.actual s0)] := by
    rw [shiftDPUs, hkeys]
    rfl
  have hnum : 0 ≤ sumBy v Row.shift Row.downtime s0 := by
    rw [sumBy]
    apply List.sum_nonneg
    intro x hx
    rcases List.mem_map.1 hx with ⟨r, hr, rfl⟩
    exact hdn r (List.mem_filter.1 hr).1
  have hden : 0 ≤ sumBy v Row.shift Row.actual s0 := by
    rw [sumBy]
    apply List.sum_nonneg
    intro x hx
    rcases List.mem_map.1 hx with ⟨r, hr, rfl⟩
    exact han r (List.mem_filter.1 hr).1
  have hd0 : 0 ≤ _safe_div (sumBy v Row.shift Row.downtime s0) (sumBy v Row.shift Row.actual s0) :=
    safe_div_nonneg hnum hden
  set d := _safe_div (sumBy v Row.shift Row.downtime s0) (sumBy v Row.shift Row.actual s0)
  rw [hdpus, shiftRuleFiresB]
  rw [show ([d] : List ℚ).max? = some d from rfl]
  apply decide_eq_false
  intro hcontra
  have hrw : ([d] : List ℚ).sum / ((([d] : List ℚ).length : ℕ) : ℚ) * (12 / 10)
      = d * (12 / 10) := by
    simp
  rw [hrw] at hcontra
  linarith

/-- C10 witness: a one-row view (single shift "A", downtime 5, actual 10)
does not fire the shift-variability rule. -/
theorem C10_single_shift_witness :
    ([{ baseRow with downtime := 5, actual := 10 }] : List Row) ≠ [] ∧
    shiftRuleFiresB (shiftDPUs [{ baseRow with downtime := 5, actual := 10 }]) = false := by
  constructor
  · exact List.cons_ne_nil _ _
  · refine C10_single_shift _ "A" (List.cons_ne_nil _ _) ?_ ?_ ?_
    · intro r hr
      rcases List.mem_singleton.1 hr with rfl
      rfl
    · intro r hr
      rcases List.mem_singleton.1 hr with rfl
      norm_num [baseRow]
    · intro r hr
      rcases List.mem_singleton.1 hr with rfl
      norm_num [baseRow]

/-- C8. The insight generator follows the fixed algorithm: an empty view
returns exactly the sentinel string; a non-empty view spanning fewer than
two weekly buckets still carries an explicit trend sentence saying the
comparison needs more weeks (never silently omitted — it is the first
joined sentence); with at least two weekly buckets the trend sentence
reports `change% = (last − prev)/prev * 100` when the previous week is
nonzero, and explicitly reports that comparison is not possible when the
previous week is zero. -/
theorem C8_generate_insights :
    generate_insights [] = "No data available to generate insights." ∧
    (∀ v : List Row, v ≠ [] → wkIdx (maxDay v) = wkIdx (minDay v) →
      generate_insights v = String.intercalate " | "
        ("Production Trend: Only one or less weeks of data available in the current filter selection for trend analysis."
          :: (bestProductMsgList v ++ topDowntimeMsgList v))) ∧
    (∀ v : List Row, wkIdx (minDay v) < wkIdx (maxDay v) → prevWeekProd v ≠ 0 →
      trendInsight v = "Production Trend: Total output has **"
        ++ (if 0 ≤ (lastWeekProd v - prevWeekProd v) / prevWeekProd v * 100
            then "increased" else "decreased")
        ++ " by " ++ fmtFixed |(lastWeekProd v - prevWeekProd v) / prevWeekProd v * 100| 1 false
        ++ "%** compared to the previous reporting period.") ∧
    (∀ v : List Row, wkIdx (minDay v) < wkIdx (maxDay v) → prevWeekProd v = 0 →
      trendInsight v
        = "Production Trend: Comparison to previous period is not possible (zero production).") := by
  refine ⟨?_, ?_, ?_, ?_⟩
  · rw [generate_insights, if_pos rfl]
  · intro v hne hwk
    rw [generate_insights, if_neg hne, insightParts, trendInsight, if_neg]
    rw [numWeeks, hwk]
    omega
  · intro v hwk hprev
    have h2 : 2 ≤ numWeeks v := by
      rw [numWeeks]
      omega
    rw [trendInsight, if_pos h2, if_pos hprev]
  · intro v hwk hprev
    have h2 : 2 ≤ numWeeks v := by
      rw [numWeeks]
      omega
    rw [trendInsight, if_pos h2, if_neg (by simp [hprev])]

/-- C8 witness: a single-day view gets the explicit "only one or less
weeks" trend line; a two-week view with nonzero previous week gets the
change sentence; a two-week view with zero previous week gets the
"comparison not possible" sentence. -/
theorem C8_generate_insights_witness :
    (([baseRow] : List Row) ≠ [] ∧
      generate_insights [baseRow] = String.intercalate " | "
        ("Production Trend: Only one or less weeks of data available in the current filter selection for trend analysis."
          :: (bestProductMsgList [baseRow] ++ topDowntimeMsgList [baseRow]))) ∧
    (prevWeekProd exTwoWeeks ≠ 0 ∧
      trendInsight exTwoWeeks = "Production Trend: Total output has **"
        ++ (if 0 ≤ (lastWeekProd exTwoWeeks - prevWeekProd exTwoWeeks) / prevWeekProd exTwoWeeks * 100
            then "increased" else "decreased")
        ++ " by "
        ++ fmtFixed |(lastWeekProd exTwoWeeks - prevWeekProd exTwoWeeks) / prevWeekProd exTwoWeeks * 100| 1 false
        ++ "%** compared to the previous reporting period.") ∧
    (prevWeekProd exZeroPrev = 0 ∧
      trendInsight exZeroPrev
        = "Production Trend: Comparison to previous period is not possible (zero production).") := by
  have hm2 : wkIdx (maxDay exTwoWeeks) - 1 = 0 := by decide
  have hf2 : exTwoWeeks.filter (fun r => wkIdx (dayOf r.date) = 0)
      = [{ baseRow with actual := 5 }] := by decide
  have hp2 : prevWeekProd exTwoWeeks = 5 := by
    rw [prevWeekProd, weekProd, hm2, hf2]
    norm_num [baseRow]
  have hm3 : wkIdx (maxDay exZeroPrev) - 1 = 0 := by decide
  have hf3 : exZeroPrev.filter (fun r => wkIdx (dayOf r.date) = 0)
      = [{ baseRow with actual := 0 }] := by decide
  have hp3 : prevWeekProd exZeroPrev = 0 := by
    rw [prevWeekProd, weekProd, hm3, hf3]
    norm_num [baseRow]
  refine ⟨⟨List.cons_ne_nil _ _, ?_⟩, ⟨?_, ?_⟩, ⟨hp3, ?_⟩⟩
  · exact C8_generate_insights.2.1 [baseRow] (List.cons_ne_nil _ _) (by decide)
  · rw [hp2]
    norm_num
  · exact C8_generate_insights.2.2.1 exTwoWeeks (by decide) (by rw [hp2]; norm_num)
  · exact C8_generate_insights.2.2.2 exZeroPrev (by decide) hp3

/-- C3 (amended). A failed load (malformed file, missing `Date` column,
or unparseable dates) is atomic in the sense that no partial rows are
loaded — but it does NOT leave the previously loaded dataset available:
`load_data` returns an empty dataframe from its `except` branch and the
caller assigns it to the session unconditionally, so the previous dataset
is replaced by the empty one. -/
theorem C3_load_failure (s : SessionState) (f : CsvFile) (h : load_failed f) :
    (upload_new_csv s f).df = [] := by
  cases f with
  | malformed => rfl
  | missingDateColumn rows => rfl
  | wellFormed rows =>
    show load_data (CsvFile.wellFormed rows) = []
    rw [load_data, h]

/-- C3 witness: uploading a malformed file over a session holding one row
leaves the session with an empty dataset. -/
theorem C3_load_failure_witness :
    load_failed CsvFile.malformed ∧
    (upload_new_csv ⟨[(0, baseRow)]⟩ CsvFile.malformed).df = [] :=
  ⟨trivial, C3_load_failure ⟨[(0, baseRow)]⟩ CsvFile.malformed trivial⟩

/-- C3 counterexample: a session whose dataset holds one row uploads a
malformed file; afterwards the session's dataset is empty, not the
previous one-row dataset — refuting "the previously loaded dataset
remains unchanged and available to the session". -/
theorem C3_load_failure_counterexample :
    (upload_new_csv ⟨[(0, baseRow)]⟩ CsvFile.malformed).df = [] ∧
    (upload_new_csv ⟨[(0, baseRow)]⟩ CsvFile.malformed).df ≠ [(0, baseRow)] := by
  constructor
  · rfl
  · intro h
    rw [show (upload_new_csv ⟨[(0, baseRow)]⟩ CsvFile.malformed).df = [] from rfl] at h
    exact List.noConfusion h

lemma to_datetime_strict_id {c : DateCell} (h : isDatetimeCell c) :
    to_datetime_strict c = some c := by
  cases c with
  | parsed d => rfl
  | notATime => rfl
  | raw s => exact absurd h (by rw [isDatetimeCell]; exact fun hh => hh)

lemma to_datetime_coerce_id {c : DateCell} (h : isDatetimeCell c) :
    to_datetime_coerce c = c := by
  cases c with
  | parsed d => rfl
  | notATime => rfl
  | raw s => exact absurd h (by rw [isDatetimeCell]; exact fun hh => hh)

lemma parse_dates_strict_id {df : List Row} (h : ∀ r ∈ df, isDatetimeCell r.date) :
    parse_dates_strict df = some df := by
  induction df with
  | nil => rfl
  | cons r t ih =>
    have hr : to_datetime_strict r.date = some r.date :=
      to_datetime_strict_id (h r (List.mem_cons_self r t))
    have ht : parse_dates_strict t = some t :=
      ih fun x hx => h x (List.mem_cons_of_mem r hx)
    rw [parse_dates_strict] at ht ⊢
    rw [List.mapM_cons, hr, ht]
    rfl

/-- C4 (scoped to loaded datasets). On any dataset whose `Date` column is
already datetime-typed — the invariant `load_data` establishes — the core
operations leave the dataset's contents identical: `create_filters`'s
in-place `pd.to_datetime` re-assignment writes back exactly the same
values (the post-call dataframe equals the input), and likewise for the
AI condensation's coerced re-assignment. KPI computation, insight
generation and the aggregations only read the view. -/
theorem C4_core_does_not_mutate (df : List Row) (p : FilterParams)
    (h : ∀ r ∈ df, isDatetimeCell r.date) :
    create_filters df p =
      some (((df.filter fun r => dateInRangeB r.date p.start_day p.end_day).filter
          (fun r => row_matches r p), df)) ∧
    condense_post df = df := by
  constructor
  · rw [create_filters, parse_dates_strict_id h]
    rfl
  · rw [condense_post]
    have : ∀ r ∈ df, ({ r with date := to_datetime_coerce r.date } : Row) = r := by
      intro r hr
      rw [to_datetime_coerce_id (h r hr)]
    calc df.map (fun r => { r with date := to_datetime_coerce r.date })
        = df.map id := List.map_congr_left this
      _ = df := List.map_id df

/-- C4 witness: on the one-row dataset with a parsed date, filtering
returns the dataset unchanged as post-state and condensation leaves it
intact. -/
theorem C4_core_does_not_mutate_witness :
    (∀ r ∈ ([baseRow] : List Row), isDatetimeCell r.date) ∧
    condense_post [baseRow] = [baseRow] := by
  have h : ∀ r ∈ ([baseRow] : List Row), isDatetimeCell r.date := by
    intro r hr
    rcases List.mem_singleton.1 hr with rfl
    exact trivial
  exact ⟨h, (C4_core_does_not_mutate [baseRow] ⟨0, 0, [], [], [], []⟩ h).2⟩

lemma fmtPct2_zero : fmtPct2 0 = "0.00%" := by
  rw [fmtPct2_of_nonneg (by norm_num)
    (show _ = ((0 : Nat) : Int) by norm_num [roundHalfEvenQ])]
  decide

/-- C6. `calculate_kpis` returns the six KPIs in their fixed renderer-
agnostic order with the contractual formatting (counts thousands-
separated with no decimals, ratios as percentages with 2 decimals, waste
weight with 1 decimal); on the example view {actual=100, planned=120},
{actual=80, planned=80} the Overall Efficiency is (100+80)/(120+80) = 0.9,
formatted exactly "90.00%". -/
theorem C6_calculate_kpis :
    (∀ v : List Row, (calculate_kpis v).map Prod.fst =
      ["Total Production (Units)", "Overall Efficiency", "Raw Material Yield",
       "Total Waste (kg)", "Total Downtime (min)", "Utilization Rate"]) ∧
    calculate_kpis exKpiView =
      [("Total Production (Units)", "180"),
       ("Overall Efficiency", "90.00%"),
       ("Raw Material Yield", "0.00%"),
       ("Total Waste (kg)", "0.0"),
       ("Total Downtime (min)", "0"),
       ("Utilization Rate", "0.00%")] := by
  constructor
  · intro v
    rfl
  · have ha : totalActual exKpiView = 180 := by norm_num [totalActual, exKpiView, baseRow]
    have hp : totalPlanned exKpiView = 200 := by norm_num [totalPlanned, exKpiView, baseRow]
    have hru : totalRawUsed exKpiView = 0 := by norm_num [totalRawUsed, exKpiView, baseRow]
    have hwa : totalWaste exKpiView = 0 := by norm_num [totalWaste, exKpiView, baseRow]
    have hdt : totalDowntime exKpiView = 0 := by norm_num [totalDowntime, exKpiView, baseRow]
    have hrt : totalRunTime exKpiView = 0 := by norm_num [totalRunTime, exKpiView, baseRow]
    have he : _safe_div (180 : ℚ) 200 = 9 / 10 := by
      rw [_safe_div]
      norm_num
    have hy : _safe_div ((0 : ℚ) - 0) 0 = 0 := by
      rw [_safe_div]
      norm_num
    have hu : _safe_div (0 : ℚ) (0 + 0) = 0 := by
      rw [_safe_div]
      norm_num
    have f1 : fmtFixed (180 : ℚ) 0 true = "180" := by
      rw [fmtFixed_of_nonneg 0 true (by norm_num)
        (show _ = ((180 : Nat) : Int) by norm_num [roundHalfEvenQ])]
      decide
    have f2 : fmtPct2 (9 / 10 : ℚ) = "90.00%" := by
      rw [fmtPct2_of_nonneg (by norm_num)
        (show _ = ((9000 : Nat) : Int) by norm_num [roundHalfEvenQ])]
      decide
    have f4 : fmtFixed (0 : ℚ) 1 true = "0.0" := by
      rw [fmtFixed_of_nonneg 1 true (by norm_num)
        (show _ = ((0 : Nat) : Int) by norm_num [roundHalfEvenQ])]
      decide
    have f5 : fmtFixed (0 : ℚ) 0 true = "0" := by
      rw [fmtFixed_of_nonneg 0 true (by norm_num)
        (show _ = ((0 : Nat) : Int) by norm_num [roundHalfEvenQ])]
      decide
    simp only [calculate_kpis]
    rw [ha, hp, hru, hwa, hdt, hrt, he, hy, hu, f1, f2, fmtPct2_zero, f4, f5]

/-- C7 (amended). `safe_div(n, 0) = 0` for every numerator and never
raises; a view whose rows all have `raw_used = 0` formats the Raw
Material Yield KPI as exactly "0.00%"; and every guarded ratio stays
finite — but the claim's "no per-group ratio output is inf or NaN" only
holds for the `_safe_div`-guarded columns: the product `Share` column is
unguarded and is NaN whenever the view's total actual is 0 (see the
counterexample), so the finiteness of the shares needs the total to be
positive. -/
theorem C7_safe_division (n : ℚ) (v : List Row) :
    _safe_div n 0 = 0 ∧
    ((∀ r ∈ v, r.raw_used = 0) →
      ("Raw Material Yield", "0.00%") ∈ calculate_kpis v) ∧
    (0 < totalActual v → ∀ s ∈ productShare v, ∃ q, s = PFloat.fin q) := by
  refine ⟨?_, ?_, ?_⟩
  · rw [_safe_div, if_pos rfl]
  · intro h0
    have hraw : totalRawUsed v = 0 := by
      rw [totalRawUsed]
      apply List.sum_eq_zero
      intro x hx
      rcases List.mem_map.1 hx with ⟨r, hr, rfl⟩
      exact h0 r hr
    have hfmt : fmtPct2 (_safe_div (totalRawUsed v - totalWaste v) (totalRawUsed v))
        = "0.00%" := by
      rw [hraw, _safe_div, if_pos rfl]
      exact fmtPct2_zero
    simp only [calculate_kpis]
    rw [hfmt]
    exact List.mem_cons_of_mem _ (List.mem_cons_of_mem _ (List.mem_cons_self _ _))
  · intro hpos s hs
    have hT : totalActual v ≠ 0 := ne_of_gt hpos
    rw [productShare] at hs
    rcases List.mem_map.1 hs with ⟨k, _, rfl⟩
    rw [productShareTotal_eq_totalActual, pdiv, if_neg hT]
    exact ⟨_, rfl⟩

/-- C7 witness: `safe_div(5, 0) = 0`; the one-row view with raw_used 0
and actual 100 formats Raw Material Yield as "0.00%" and has only finite
shares. -/
theorem C7_safe_division_witness :
    _safe_div 5 0 = 0 ∧
    ("Raw Material Yield", "0.00%") ∈ calculate_kpis exYieldView ∧
    (0 < totalActual exYieldView ∧
      ∀ s ∈ productShare exYieldView, ∃ q, s = PFloat.fin q) := by
  refine ⟨(C7_safe_division 5 exYieldView).1, ?_, ?_, ?_⟩
  · exact (C7_safe_division 5 exYieldView).2.1 fun r hr => by
      rcases List.mem_singleton.1 hr with rfl
      rfl
  · norm_num [totalActual, exYieldView, baseRow]
  · exact (C7_safe_division 5 exYieldView).2.2
      (by norm_num [totalActual, exYieldView, baseRow])

/-- C7 counterexample: on a view whose total actual production is 0, the
product `Share` column — a per-group ratio — is NaN, and the report
renderers format it as the non-finite string "nan%", refuting "no
formatted KPI or per-group ratio output is inf or NaN" as stated for all
views. -/
theorem C7_safe_division_counterexample :
    productShare exNanShareView = [PFloat.nan] ∧ fmtSharePct PFloat.nan = "nan%" := by
  constructor
  · have hkeys : productKeys exNanShareView = ["P"] := by decide
    have hf : exNanShareView.filter (fun r => r.product_name = "P") = exNanShareView := by
      decide
    have hsum : sumBy exNanShareView Row.product_name Row.actual "P" = 0 := by
      rw [sumBy, hf]
      norm_num [exNanShareView, baseRow]
    have htot : productShareTotal exNanShareView = 0 := by
      rw [productShareTotal, hkeys]
      simp [hsum]
    rw [productShare, hkeys, htot]
    simp [hsum, pdiv]
  · rfl
